import Mathlib

/-!
Verification development for the crazyflie trajectory planner
(`src/map_objects.py` and `src/a_star.py`).

The embedding models Python semantics explicitly:

* continuous quantities (`float` in the source) are embedded as exact
  rationals `ℚ`; Python's `//` on numbers is the mathematical floor,
  `int(..)` truncates toward zero;
* Python list indexing `l[i]` is embedded with its real semantics:
  an index `i` with `0 ≤ i < len` reads position `i`, a negative index
  with `-len ≤ i < 0` wraps around to `len + i`, and anything else
  raises `IndexError`;
* code that raises at runtime is embedded as `Except.error` carrying the
  Python exception class it raises.

`src/a_star.py` is unfinished: the file ends in the middle of a block
(`if node.value == node_value:` with no body), so importing the module
raises a `SyntaxError` in CPython.  We embed the class as if the file
parsed, which is generous to the code; the individual runtime errors of
each statement are still modelled faithfully and are documented on the
corresponding definitions.
-/

/-- The Python exception classes (and one modelling artifact) that the
embedded code can raise.  `invalidEndpointError` is modelled from the
spec: the spec names an `InvalidEndpointError`; no such class exists
anywhere in the source, the constructor exists only so that theorems can
compare the code's actual errors against the spec's words.
`nonTermination` is a modelling artifact: it is returned only when the
fuel bounding the unbounded `while True:` loop runs out. -/
inductive PyError where
  | typeError
  | nameError
  | attributeError
  | indexError
  | valueError
  | zeroDivisionError
  | nonTermination
  | invalidEndpointError
deriving DecidableEq

deriving instance DecidableEq for Except

/-- Python `int(q)`: truncation toward zero. -/
def pyInt (q : ℚ) : ℤ := if 0 ≤ q then ⌊q⌋ else ⌈q⌉

/-- Resolve a Python list index: in-range indices are used directly,
negative indices with `-len ≤ i < 0` wrap around to `len + i`, anything
else is invalid (`none`, an `IndexError` at use sites). -/
def pyIdx {α : Type} (l : List α) (i : ℤ) : Option (Fin l.length) :=
  if h : 0 ≤ i ∧ i < (l.length : ℤ) then
    some ⟨i.toNat, by omega⟩
  else if h2 : -(l.length : ℤ) ≤ i ∧ i < 0 then
    some ⟨(i + l.length).toNat, by omega⟩
  else none

/-- Python `l[i]` (read). -/
def pyGet {α : Type} (l : List α) (i : ℤ) : Except PyError α :=
  match pyIdx l i with
  | some j => .ok (l.get j)
  | none => .error .indexError

/-- Python `l[i] = a` (write), same index resolution as reads. -/
def pySet {α : Type} (l : List α) (i : ℤ) (a : α) : Except PyError (List α) :=
  match pyIdx l i with
  | some j => .ok (l.set j a)
  | none => .error .indexError

/-- Python `range(a, b + 1)`, i.e. the integers `a, a+1, …, b`. -/
def intsFromTo (a b : ℤ) : List ℤ :=
  (List.range (b + 1 - a).toNat).map (fun k : ℕ => a + (k : ℤ))

/-- Embeds the `Node` class of `src/map_objects.py`.  `_f_cost` is kept
in sync with `_cost + _heuristic` by every setter and recomputed by the
`f_cost` property, so it is represented by the derived function
`Node.f_cost` instead of a field.  Python's `parent` is a reference to
another node or `None`; since `Node.__eq__` identifies nodes by their
coordinates, the parent reference is represented by the parent's
coordinates. -/
structure Node where
  coords : ℤ × ℤ
  is_obstacle : Bool
  cost : ℚ
  heuristic : ℚ
  parent : Option (ℤ × ℤ)
deriving DecidableEq

/-- The `f_cost` property: recomputed as `_cost + _heuristic` on every
read. -/
def Node.f_cost (n : Node) : ℚ := n.cost + n.heuristic

/-- Embeds `Node.__sort__` (`src/map_objects.py:155-156`): compares the
`f_cost` values and nothing else.  Note that `__sort__` is not a
comparison hook CPython knows about: `list.sort()` uses `__lt__`, which
`Node` does not define, so this method is never actually called by the
sorting in `a_star_search`. -/
def Node.sortMethod (n other : Node) : Bool := decide (n.f_cost < other.f_cost)

/-- A node as constructed by `Node(coords=(x,y))`: not an obstacle, zero
cost and heuristic, no parent. -/
def Node.fresh (coords : ℤ × ℤ) : Node :=
  { coords := coords, is_obstacle := false, cost := 0, heuristic := 0, parent := none }

/-- Embeds `self.nodes_found.sort()` as executed by CPython: `list.sort`
compares elements with `<`; `Node` defines `__eq__` and the nonstandard
`__sort__` but no `__lt__` (and no reflected `__gt__`), so the first
comparison raises `TypeError`.  Timsort performs at least one comparison
on every list of length at least two and none on shorter lists. -/
def pySortNodes (l : List Node) : Except PyError (List Node) :=
  if l.length ≤ 1 then .ok l else .error .typeError

/-- Embeds the `Obstacle` class: four stored bounds derived from the
vertex list. -/
structure Obstacle where
  vertices : List (ℚ × ℚ)
  top : ℚ
  bottom : ℚ
  left : ℚ
  right : ℚ
deriving DecidableEq

/-- Embeds `Obstacle.__init__`: `top = max(ys)`, `bottom = min(ys)`,
`left = min(xs)`, `right = max(xs)`.  Python's `max`/`min` on an empty
sequence raise `ValueError`. -/
def Obstacle.make (vertices : List (ℚ × ℚ)) : Except PyError Obstacle :=
  match vertices with
  | [] => .error .valueError
  | v :: vs => .ok {
      vertices := vertices
      top := vs.foldl (fun a w => max a w.2) v.2
      bottom := vs.foldl (fun a w => min a w.2) v.2
      left := vs.foldl (fun a w => min a w.1) v.1
      right := vs.foldl (fun a w => max a w.1) v.1 }

/-- Embeds the `Map` class.  The derived, unused `extents` attribute is
omitted. -/
structure Map where
  origin : ℚ × ℚ
  dim_x : ℚ
  dim_y : ℚ
  drone_dim : ℚ
  obstacles : List Obstacle
  array : List (List Node)
deriving DecidableEq

/-- The grid as built in `Map.__init__`:
`[[Node(coords=(x,y)) for x in range(W)] for y in range(H)]`,
so `array[y][x]` holds the node with coordinates `(x, y)`. -/
def freshArray (W H : ℕ) : List (List Node) :=
  (List.range H).map (fun y : ℕ => (List.range W).map (fun x : ℕ => Node.fresh ((x : ℤ), (y : ℤ))))

/-- One `self.array[y][x].set_obstacle(True)` statement of
`Map.create_obstacles`: both index resolutions follow Python list
semantics (negative wraparound, `IndexError` otherwise); the in-place
node mutation becomes a functional update of the same position. -/
def setObstacleAt (arr : List (List Node)) (y x : ℤ) : Except PyError (List (List Node)) := do
  let row ← pyGet arr y
  let node ← pyGet row x
  let row2 ← pySet row x { node with is_obstacle := true }
  pySet arr y row2

/-- The two nested `for` loops of `Map.create_obstacles`:
`for y in range(bottom, top+1): for x in range(left, right+1): …`. -/
def markObstacle (arr : List (List Node)) (top bottom left right : ℤ) :
    Except PyError (List (List Node)) :=
  (intsFromTo bottom top).foldlM (fun acc y =>
    (intsFromTo left right).foldlM (fun acc2 x => setObstacleAt acc2 y x) acc) arr

/-- Embeds `Map.create_obstacles` (`src/map_objects.py:38-47`): for each
obstacle the bounds are translated by the origin, divided by
`drone_dim`, truncated with `int(..)`, and the inclusive index rectangle
is marked.  Dividing by a zero `drone_dim` raises `ZeroDivisionError` in
Python. -/
def Map.create_obstacles (m : Map) (obstacles : List Obstacle) : Except PyError Map := do
  let arr ← obstacles.foldlM (fun acc o =>
    if m.drone_dim = 0 then .error .zeroDivisionError else
    markObstacle acc
      (pyInt ((o.top + m.origin.2) / m.drone_dim))
      (pyInt ((o.bottom + m.origin.2) / m.drone_dim))
      (pyInt ((o.left + m.origin.1) / m.drone_dim))
      (pyInt ((o.right + m.origin.1) / m.drone_dim))) m.array
  pure { m with array := arr }

/-- Embeds `Map.__init__`: stores the parameters, builds the fresh
`int(dim_x/drone_dim) × int(dim_y/drone_dim)` grid and immediately calls
`create_obstacles` on it. -/
def Map.build (origin : ℚ × ℚ) (dim_x dim_y : ℚ) (obstacles : List Obstacle)
    (drone_dim : ℚ) : Except PyError Map :=
  if drone_dim = 0 then .error .zeroDivisionError
  else
    Map.create_obstacles
      { origin := origin, dim_x := dim_x, dim_y := dim_y, drone_dim := drone_dim
        obstacles := obstacles
        array := freshArray (pyInt (dim_x / drone_dim)).toNat (pyInt (dim_y / drone_dim)).toNat }
      obstacles

/-- The double lookup `self.array[i][j]`. -/
def readCell (arr : List (List Node)) (i j : ℤ) : Except PyError Node := do
  let r ← pyGet arr i
  pyGet r j

/-- One guarded neighbor expression of `Map.get_neighbors`, e.g.
`top = None if y_pos+1 >= array_y else self.array[y_pos+1][x_pos]`:
`None` when the guard fires, otherwise the (possibly raising) double
lookup. -/
def readNeighbor (skip : Prop) [Decidable skip] (arr : List (List Node)) (i j : ℤ) :
    Except PyError (Option Node) :=
  if skip then pure none else do
    let n ← readCell arr i j
    pure (some n)

/-- Embeds `Map.get_neighbors` (`src/map_objects.py:49-60`): the
candidates are `array[y+1][x]`, `array[y-1][x]`, `array[y][x-1]`,
`array[y][x+1]`, each guarded exactly as in the source (only the upper
bound is checked for `top`/`right` and only the lower bound for
`bottom`/`left`; the unchecked bound can raise `IndexError` for nodes
with out-of-grid coordinates, or wrap for negative ones).
`len(self.array[0])` raises `IndexError` on a grid with no rows.
`None` entries and obstacle nodes are filtered out, preserving the
`[top, bottom, left, right]` order. -/
def Map.get_neighbors (m : Map) (node : Node) : Except PyError (List Node) := do
  let x_pos := node.coords.1
  let y_pos := node.coords.2
  let array_y : ℤ := m.array.length
  let row0 ← pyGet m.array 0
  let array_x : ℤ := row0.length
  let top ← readNeighbor (y_pos + 1 ≥ array_y) m.array (y_pos + 1) x_pos
  let bottom ← readNeighbor (y_pos - 1 < 0) m.array (y_pos - 1) x_pos
  let left ← readNeighbor (x_pos - 1 < 0) m.array y_pos (x_pos - 1)
  let right ← readNeighbor (x_pos + 1 ≥ array_x) m.array y_pos (x_pos + 1)
  pure (([top, bottom, left, right].filterMap id).filter (fun n => !n.is_obstacle))

/-- Embeds `Map.sequence_to_path` (`src/map_objects.py:62-67`): each
index pair `s` becomes the continuous point
`(s*drone_dim + 0.5*drone_dim - origin)` per axis. -/
def Map.sequence_to_path (m : Map) (seq : List (ℤ × ℤ)) : List (ℚ × ℚ) :=
  seq.map (fun s =>
    ((s.1 : ℚ) * m.drone_dim + (1/2 : ℚ) * m.drone_dim - m.origin.1,
     (s.2 : ℚ) * m.drone_dim + (1/2 : ℚ) * m.drone_dim - m.origin.2))

/-- Embeds the `Astar` class state (`src/a_star.py`). -/
structure Astar where
  map : Map
  start : ℚ × ℚ
  target : ℚ × ℚ
  nodes_found : List Node
  nodes_checked : List Node
deriving DecidableEq

/-- `Astar.__init__`. -/
def Astar.init (m : Map) (start target : ℚ × ℚ) : Astar :=
  { map := m, start := start, target := target, nodes_found := [], nodes_checked := [] }

/-- Embeds `Astar.pos_to_node` (`src/a_star.py:31-43`) as called with
both of its declared arguments: `node_x = pos[0]//map.drone_dim`,
`node_y = pos[1]//map.drone_dim` (`//` is the floor; no origin
translation, no explicit bounds check), then the lookup
`map.array[node_x][node_y]` — the per-axis x index is used as the outer
(row) index.  A zero `drone_dim` raises `ZeroDivisionError`. -/
def pos_to_node (pos : ℚ × ℚ) (m : Map) : Except PyError Node :=
  if m.drone_dim = 0 then .error .zeroDivisionError
  else do
    let node_x : ℤ := ⌊pos.1 / m.drone_dim⌋
    let node_y : ℤ := ⌊pos.2 / m.drone_dim⌋
    let row ← pyGet m.array node_x
    pyGet row node_y

/-- Embeds `Astar.calculate_score` (`src/a_star.py:14-29`).  Its first
statement `_current_pos=child.coords()` calls the value of the `coords`
property — a tuple — and CPython raises `TypeError: 'tuple' object is
not callable` (the later `parent.heuristic()` would likewise call a
number).  The method therefore raises on every call and never returns
the score `dist_to_target + parent.heuristic + drone_dim` its body is
written to compute. -/
def Astar.calculate_score (a : Astar) (parent child : Node)
    (target : ℚ × ℚ) : Except PyError ℝ :=
  Except.error PyError.typeError

/-- `a_star_search` calls `self.pos_to_node(self.start)` (line 56) and
`self.pos_to_node(self.target)` (line 70) with a single argument, but
the method signature is `pos_to_node(self, pos, map)`: CPython raises
`TypeError: pos_to_node() missing 1 required positional argument: 'map'`
at the call site, before the method body runs. -/
def pos_to_node_missing_arg : Except PyError Node := .error .typeError

/-- Embeds the path-reconstruction block (`src/a_star.py:71-77`).
`path = [node_to_check]; node = node_to_check.parent`, then the inner
loop appends `node` and tests `if node.parent in None:`.  If the popped
node has no parent, `node` is `None` and `node.parent` raises
`AttributeError`; otherwise `node.parent in None` raises `TypeError`
(`argument of type 'NoneType' is not iterable`).  Reconstruction can
therefore never complete. -/
def reconstructPath (node_to_check : Node) : Except PyError (List Node) :=
  match node_to_check.parent with
  | none => .error .attributeError
  | some _ => .error .typeError

/-- The pop step of the search loop (`src/a_star.py:64-65`):
`self.nodes_found.sort()` followed by `pop(0)`.  `pop(0)` on an empty
list raises `IndexError`. -/
def popStep (l : List Node) : Except PyError (Node × List Node) := do
  let sorted ← pySortNodes l
  match sorted with
  | [] => .error .indexError
  | x :: xs => .ok (x, xs)

/-- Embeds the `while True:` loop of `Astar.a_star_search`
(`src/a_star.py:58-92`), bounded by fuel (a modelling artifact; the
loop in the source is unbounded).  Per iteration: if `nodes_found` is
empty the loop prints and breaks, and the function falls through,
returning `None` (embedded as `Option.none`); otherwise sort and pop
(`popStep`), append the popped node to `nodes_checked`, evaluate
`self.pos_to_node(self.target)` (a `TypeError`, see
`pos_to_node_missing_arg`), compare by coordinates (`Node.__eq__`),
reconstruct on success, and otherwise evaluate
`new_nodes = find_nodes(node_to_check)` — `find_nodes` is an undefined
name, so CPython raises `NameError` there; the statements after it
(lines 84-92, which also end mid-block) are unreachable. -/
def a_star_loop : ℕ → Astar → Except PyError (Option (List Node))
  | 0, _ => .error .nonTermination
  | fuel + 1, a =>
    if a.nodes_found = [] then .ok none
    else do
      let popped ← popStep a.nodes_found
      let node_to_check := popped.1
      let a2 : Astar := { a with nodes_found := popped.2,
                                 nodes_checked := a.nodes_checked ++ [node_to_check] }
      let tgt ← pos_to_node_missing_arg
      if node_to_check.coords = tgt.coords then do
        let path ← reconstructPath node_to_check
        pure (some path)
      else do
        let _new_nodes ← (Except.error PyError.nameError : Except PyError (List Node))
        a_star_loop fuel a2

/-- Embeds `Astar.a_star_search` (`src/a_star.py:45-92`): the first
statement `self.nodes_found.append(self.pos_to_node(self.start))`
evaluates `self.pos_to_node(self.start)`, which raises `TypeError`
(missing required positional argument `map`); only then would the loop
run. -/
def a_star_search (a : Astar) (fuel : ℕ) : Except PyError (Option (List Node)) := do
  let s ← pos_to_node_missing_arg
  a_star_loop fuel { a with nodes_found := a.nodes_found ++ [s] }

/-- Spec-side definition, following the spec's words, for comparison
with the code's `pos_to_node`: `worldToCell(position)` computes the
integer cell index `floor((position + origin) / footprint)` per axis and
fails (`OutOfBoundsError`, here `none`) if the index is outside
`[0, width) × [0, height)`. -/
def worldToCell_spec (m : Map) (pos : ℚ × ℚ) : Option (ℤ × ℤ) :=
  let i := ⌊(pos.1 + m.origin.1) / m.drone_dim⌋
  let j := ⌊(pos.2 + m.origin.2) / m.drone_dim⌋
  let W : ℤ := (m.array.headD []).length
  let H : ℤ := m.array.length
  if 0 ≤ i ∧ i < W ∧ 0 ≤ j ∧ j < H then some (i, j) else none

/-- Spec-side definition, following the spec's words, for comparison
with the code's `calculate_score`: the heuristic of a neighbor is the
Euclidean distance between the neighbor's grid position and the target's
grid position, scaled by the grid's footprint. -/
noncomputable def heuristic_spec (m : Map) (child_cell target_cell : ℤ × ℤ) : ℝ :=
  m.drone_dim *
    Real.sqrt (((child_cell.1 : ℝ) - (target_cell.1 : ℝ)) ^ 2 +
               ((child_cell.2 : ℝ) - (target_cell.2 : ℝ)) ^ 2)

/-- A freshly built obstacle-free map with the given origin, grid
dimensions (in cells) and footprint. -/
def mkFreshMap (origin : ℚ × ℚ) (W H : ℕ) (d : ℚ) : Map :=
  { origin := origin, dim_x := (W : ℚ) * d, dim_y := (H : ℚ) * d, drone_dim := d
    obstacles := [], array := freshArray W H }

/-- The coordinates stored in a grid, position by position. -/
def coordsGrid (arr : List (List Node)) : List (List (ℤ × ℤ)) :=
  arr.map (fun row => row.map Node.coords)

/-- Concrete 2×2 grid: origin `(0,0)`, workspace 4×4, footprint 2, no
obstacles. -/
def m0 : Map := mkFreshMap (0, 0) 2 2 2

/-- Concrete 2×2 grid with the nonzero origin `(2,0)`. -/
def m4 : Map := mkFreshMap (2, 0) 2 2 2

/-! ### Basic lemmas about the Python-semantics helpers -/

theorem ok_bind {α β : Type} (a : α) (f : α → Except PyError β) :
    (Except.ok a >>= f) = f a := rfl

theorem error_bind {α β : Type} (e : PyError) (f : α → Except PyError β) :
    ((Except.error e : Except PyError α) >>= f) = Except.error e := rfl

theorem pyGet_inRange {α : Type} (l : List α) (i : ℤ) (h0 : 0 ≤ i)
    (h1 : i < (l.length : ℤ)) :
    pyGet l i = .ok (l.get ⟨i.toNat, by omega⟩) := by
  unfold pyGet pyIdx
  rw [dif_pos ⟨h0, h1⟩]

theorem pyGet_wrap {α : Type} (l : List α) (i : ℤ) (h0 : -(l.length : ℤ) ≤ i)
    (h1 : i < 0) :
    pyGet l i = .ok (l.get ⟨(i + l.length).toNat, by omega⟩) := by
  unfold pyGet pyIdx
  rw [dif_neg (by omega), dif_pos ⟨h0, h1⟩]

theorem pyGet_oob {α : Type} (l : List α) (i : ℤ)
    (h : i < -(l.length : ℤ) ∨ (l.length : ℤ) ≤ i) :
    pyGet l i = .error .indexError := by
  unfold pyGet pyIdx
  rw [dif_neg (by omega), dif_neg (by omega)]

theorem pySet_inRange {α : Type} (l : List α) (i : ℤ) (a : α) (h0 : 0 ≤ i)
    (h1 : i < (l.length : ℤ)) :
    pySet l i a = .ok (l.set i.toNat a) := by
  unfold pySet pyIdx
  rw [dif_pos ⟨h0, h1⟩]

theorem freshArray_length (W H : ℕ) : (freshArray W H).length = H := by
  unfold freshArray
  rw [List.length_map, List.length_range]

theorem freshArray_get (W H : ℕ) (k : ℕ) (h : k < (freshArray W H).length) :
    (freshArray W H).get ⟨k, h⟩
      = (List.range W).map (fun x : ℕ => Node.fresh ((x : ℤ), (k : ℤ))) := by
  unfold freshArray
  rw [List.get_eq_getElem, List.getElem_map, List.getElem_range]

theorem freshRow_get (W : ℕ) (y : ℤ) (k : ℕ)
    (h : k < ((List.range W).map (fun x : ℕ => Node.fresh ((x : ℤ), y))).length) :
    ((List.range W).map (fun x : ℕ => Node.fresh ((x : ℤ), y))).get ⟨k, h⟩
      = Node.fresh ((k : ℤ), y) := by
  rw [List.get_eq_getElem, List.getElem_map, List.getElem_range]

theorem pyGet_freshArray (W H : ℕ) (i : ℤ) (h0 : 0 ≤ i) (h1 : i < (H : ℤ)) :
    pyGet (freshArray W H) i
      = .ok ((List.range W).map (fun x : ℕ => Node.fresh ((x : ℤ), i))) := by
  have hl : i < ((freshArray W H).length : ℤ) := by rw [freshArray_length]; exact h1
  rw [pyGet_inRange _ _ h0 hl, freshArray_get]
  rw [Int.toNat_of_nonneg h0]

theorem pyGet_freshRow (W : ℕ) (y : ℤ) (j : ℤ) (h0 : 0 ≤ j) (h1 : j < (W : ℤ)) :
    pyGet ((List.range W).map (fun x : ℕ => Node.fresh ((x : ℤ), y))) j
      = .ok (Node.fresh (j, y)) := by
  have hl : j < (((List.range W).map (fun x : ℕ => Node.fresh ((x : ℤ), y))).length : ℤ) := by
    rw [List.length_map, List.length_range]
    exact h1
  rw [pyGet_inRange _ _ h0 hl, freshRow_get]
  rw [Int.toNat_of_nonneg h0]

theorem pos_to_node_eq (pos : ℚ × ℚ) (m : Map) (hd : m.drone_dim ≠ 0) :
    pos_to_node pos m
      = (pyGet m.array ⌊pos.1 / m.drone_dim⌋ >>=
          fun row => pyGet row ⌊pos.2 / m.drone_dim⌋) := by
  unfold pos_to_node
  rw [if_neg hd]

/-! ### C3: the round-trip property -/

/-- C3 (counterexample): the claim says that for every in-bounds cell
index c, `worldToCell(cellToWorldCenter(c)) == c`.  On the freshly built
2×2 grid `m0` (origin `(0,0)`, footprint 2, no obstacles), the center of
cell `(0, 1)` is `(1, 3)`, and `pos_to_node` maps `(1, 3)` to the node
with coordinates `(1, 0)`, not `(0, 1)`: the lookup
`map.array[node_x][node_y]` uses the x-derived index as the row index. -/
theorem c3_roundtrip_counterexample :
    Map.build (0, 0) 4 4 [] 2 = .ok m0 ∧
    m0.sequence_to_path [(0, 1)] = [(1, 3)] ∧
    (pos_to_node (1, 3) m0).map Node.coords = .ok (1, 0) ∧
    ((1 : ℤ), (0 : ℤ)) ≠ ((0 : ℤ), (1 : ℤ)) := by
  refine ⟨by with_unfolding_all decide, by with_unfolding_all decide,
    by with_unfolding_all decide, by decide⟩

/-- C3 (amended): on a freshly built grid with origin `(0, 0)` and
positive footprint `d`, the round trip of a cell index `(cx, cy)` with
`cx < height` and `cy < width` returns the node stored at
`array[cx][cy]`, whose coordinates are the transposed index `(cy, cx)`;
it equals `(cx, cy)` only on the diagonal.  (With a nonzero origin even
this fails, since `pos_to_node` ignores the origin while
`sequence_to_path` subtracts it.) -/
theorem c3_roundtrip_zero_origin_transposed (W H : ℕ) (d : ℚ) (hd : 0 < d)
    (cx cy : ℤ) (hx0 : 0 ≤ cx) (hxH : cx < (H : ℤ)) (hy0 : 0 ≤ cy) (hyW : cy < (W : ℤ)) :
    (mkFreshMap (0, 0) W H d).sequence_to_path [(cx, cy)]
      = [((cx : ℚ) * d + d / 2, (cy : ℚ) * d + d / 2)] ∧
    (pos_to_node ((cx : ℚ) * d + d / 2, (cy : ℚ) * d + d / 2)
        (mkFreshMap (0, 0) W H d)).map Node.coords
      = .ok (cy, cx) := by
  have hd0 : d ≠ 0 := ne_of_gt hd
  have hfloor : ∀ c : ℤ, ⌊((c : ℚ) * d + d / 2) / d⌋ = c := by
    intro c
    have hq : ((c : ℚ) * d + d / 2) / d = (c : ℚ) + 1 / 2 := by
      field_simp
      ring
    rw [hq, Int.floor_int_add]
    norm_num
  constructor
  · simp only [Map.sequence_to_path, mkFreshMap, List.map_cons, List.map_nil,
      List.cons.injEq, and_true, Prod.mk.injEq]
    constructor <;> ring
  · rw [pos_to_node_eq _ _ (by simpa [mkFreshMap] using hd0)]
    simp only [mkFreshMap]
    rw [hfloor cx, hfloor cy]
    rw [pyGet_freshArray W H cx hx0 hxH, ok_bind, pyGet_freshRow W cx cy hy0 hyW]
    rfl

/-- Witness for `c3_roundtrip_zero_origin_transposed` at the concrete
grid of `m0` and cell index `(0, 1)`. -/
theorem c3_roundtrip_zero_origin_transposed_witness :
    (0 : ℚ) < 2 ∧
    (pos_to_node (((0 : ℤ) : ℚ) * 2 + 2 / 2, ((1 : ℤ) : ℚ) * 2 + 2 / 2)
        (mkFreshMap (0, 0) 2 2 2)).map Node.coords = .ok (1, 0) :=
  ⟨by norm_num,
   (c3_roundtrip_zero_origin_transposed 2 2 2 (by norm_num) 0 1
      (by decide) (by decide) (by decide) (by decide)).2⟩

/-! ### C4: world-to-cell conversion -/

/-- C4 (counterexample): the claim says `worldToCell` computes
`floor((position + origin) / footprint)` per axis, returns the cell at
that index, and fails with `OutOfBoundsError` for out-of-range indices.
On `m4` (origin `(2, 0)`, footprint 2) the spec index of position
`(0, 0)` is `(1, 0)` but the code returns the cell `(0, 0)` (it ignores
the origin); and on `m0` the position `(-1, -1)` is out of bounds per
the spec, yet the code returns the cell `(1, 1)` without any error
(Python negative-index wraparound). -/
theorem c4_pos_to_node_counterexample :
    Map.build (2, 0) 4 4 [] 2 = .ok m4 ∧
    worldToCell_spec m4 (0, 0) = some (1, 0) ∧
    (pos_to_node (0, 0) m4).map Node.coords = .ok (0, 0) ∧
    ((0 : ℤ), (0 : ℤ)) ≠ ((1 : ℤ), (0 : ℤ)) ∧
    worldToCell_spec m0 (-1, -1) = none ∧
    (pos_to_node (-1, -1) m0).map Node.coords = .ok (1, 1) := by
  refine ⟨by with_unfolding_all decide, by with_unfolding_all decide,
    by with_unfolding_all decide, by decide,
    by with_unfolding_all decide, by with_unfolding_all decide⟩

/-- C4 (amended): on a freshly built `W × H` grid, `pos_to_node`
computes `floor(position / footprint)` per axis — the origin plays no
role — and evaluates `array[node_x][node_y]` with Python list
semantics: for in-range indices it returns the node with the transposed
coordinates `(node_y, node_x)`; a row index at or above the row count
(or below `-H`) raises `IndexError`; a negative row index within
`[-H, 0)` wraps around to row `node_x + H`.  No `OutOfBoundsError`
exists in the code. -/
theorem c4_pos_to_node_semantics (origin : ℚ × ℚ) (W H : ℕ) (d : ℚ) (hd : 0 < d)
    (pos : ℚ × ℚ) :
    (0 ≤ ⌊pos.1 / d⌋ → ⌊pos.1 / d⌋ < (H : ℤ) → 0 ≤ ⌊pos.2 / d⌋ → ⌊pos.2 / d⌋ < (W : ℤ) →
      (pos_to_node pos (mkFreshMap origin W H d)).map Node.coords
        = .ok (⌊pos.2 / d⌋, ⌊pos.1 / d⌋)) ∧
    ((H : ℤ) ≤ ⌊pos.1 / d⌋ ∨ ⌊pos.1 / d⌋ < -(H : ℤ) →
      pos_to_node pos (mkFreshMap origin W H d) = .error .indexError) ∧
    (-(H : ℤ) ≤ ⌊pos.1 / d⌋ → ⌊pos.1 / d⌋ < 0 → 0 ≤ ⌊pos.2 / d⌋ → ⌊pos.2 / d⌋ < (W : ℤ) →
      (pos_to_node pos (mkFreshMap origin W H d)).map Node.coords
        = .ok (⌊pos.2 / d⌋, ⌊pos.1 / d⌋ + (H : ℤ))) := by
  have hd0 : (mkFreshMap origin W H d).drone_dim ≠ 0 := by
    simpa [mkFreshMap] using ne_of_gt hd
  refine ⟨fun h1 h2 h3 h4 => ?_, fun h => ?_, fun h1 h2 h3 h4 => ?_⟩
  · rw [pos_to_node_eq _ _ hd0]
    simp only [mkFreshMap]
    rw [pyGet_freshArray W H _ h1 h2, ok_bind, pyGet_freshRow W _ _ h3 h4]
    rfl
  · rw [pos_to_node_eq _ _ hd0]
    simp only [mkFreshMap]
    rw [pyGet_oob (freshArray W H) _ (by rw [freshArray_length]; omega), error_bind]
  · rw [pos_to_node_eq _ _ hd0]
    simp only [mkFreshMap]
    have hwrap : -( ((freshArray W H).length : ℤ)) ≤ ⌊pos.1 / d⌋ := by
      rw [freshArray_length]; exact h1
    rw [pyGet_wrap (freshArray W H) _ hwrap h2]
    rw [freshArray_get]
    have hcast : ((⌊pos.1 / d⌋ + ((freshArray W H).length : ℤ)).toNat : ℤ)
        = ⌊pos.1 / d⌋ + (H : ℤ) := by
      rw [freshArray_length] at hwrap ⊢
      omega
    rw [hcast, ok_bind, pyGet_freshRow W _ _ h3 h4]
    rfl

/-- Witness for `c4_pos_to_node_semantics`: the in-range case at a map
with origin `(5, 7)` and position `(1, 3)`. -/
theorem c4_pos_to_node_semantics_witness :
    (0 : ℚ) < 2 ∧
    (pos_to_node (1, 3) (mkFreshMap (5, 7) 2 2 2)).map Node.coords
      = .ok (⌊(3 : ℚ) / 2⌋, ⌊(1 : ℚ) / 2⌋) :=
  ⟨by norm_num,
   (c4_pos_to_node_semantics (5, 7) 2 2 2 (by norm_num) (1, 3)).1
     (by with_unfolding_all decide) (by with_unfolding_all decide)
     (by with_unfolding_all decide) (by with_unfolding_all decide)⟩

/-! ### C5: the heuristic value -/

/-- The planner instance used in concrete heuristic statements: grid
`m0`, start `(1,1)`, target `(0,0)`. -/
def a5 : Astar := Astar.init m0 (1, 1) (0, 0)

/-- C5: evaluation at the failing input.  The claim describes the
heuristic value assigned to a neighbor: the footprint-scaled Euclidean
distance between the neighbor's grid position and the target's grid
position, never exceeding the true remaining cost.  At the target's own
cell of `a5` the spec-side heuristic is `0`, but `calculate_score`
assigns no value at all: it raises `TypeError` on every call (its first
statement calls the `coords` property's tuple). -/
theorem c5_calculate_score_crashes :
    Astar.calculate_score a5 (Node.fresh (3, 3)) (Node.fresh (0, 0)) (0, 0)
      = .error .typeError ∧
    heuristic_spec m0 (0, 0) (0, 0) = 0 := by
  refine ⟨rfl, ?_⟩
  simp only [heuristic_spec, m0, mkFreshMap]
  norm_num [Real.sqrt_zero]

/-! ### C6: the pop order of the open list -/

/-- Open node with `f = 5` obtained as `0 + 5`: tied `f`, large `h`. -/
def nA : Node :=
  { coords := (0, 0), is_obstacle := false, cost := 0, heuristic := 5, parent := none }

/-- Open node with `f = 5` obtained as `5 + 0`: tied `f`, small `h`. -/
def nB : Node :=
  { coords := (1, 1), is_obstacle := false, cost := 5, heuristic := 0, parent := none }

/-- C6 (counterexample): the claim says the loop pops a minimum-`f` node
and breaks `f`-ties by minimum `h`.  With the open list `[nA, nB]`
(equal `f`, `nB` has the smaller `h`), the pop step raises `TypeError`
(no `__lt__` on `Node`) instead of removing `nB`; and `__sort__`, the
method the tie-break is attributed to, cannot order the two nodes in
either direction — it compares `f_cost` only. -/
theorem c6_pop_counterexample :
    nA.f_cost = nB.f_cost ∧ nB.heuristic < nA.heuristic ∧
    popStep [nA, nB] = .error .typeError ∧
    Node.sortMethod nA nB = false ∧ Node.sortMethod nB nA = false := by
  refine ⟨by with_unfolding_all decide, by with_unfolding_all decide,
    by with_unfolding_all decide, by with_unfolding_all decide,
    by with_unfolding_all decide⟩

/-- C6 (amended): the loop sorts the open list with `list.sort()` and
pops index 0.  `Node` supplies no `__lt__` (only the nonstandard
`__sort__`, which `list.sort` never calls), so sorting any open list
with at least two nodes raises `TypeError`; and even the `__sort__`
comparator ignores `h`: nodes with equal `f` compare unordered
regardless of their heuristics, so no minimum-`h` tie-break exists
anywhere in the code. -/
theorem c6_sort_semantics :
    (∀ l : List Node, 2 ≤ l.length → pySortNodes l = .error .typeError) ∧
    (∀ n other : Node, n.f_cost = other.f_cost → Node.sortMethod n other = false) := by
  constructor
  · intro l h
    unfold pySortNodes
    rw [if_neg (by omega)]
  · intro n other h
    simp only [Node.sortMethod, h, decide_eq_false_iff_not]
    exact lt_irrefl _

/-- Witness for `c6_sort_semantics` on the concrete two-node open list. -/
theorem c6_sort_semantics_witness :
    2 ≤ ([nA, nB] : List Node).length ∧ pySortNodes [nA, nB] = .error .typeError ∧
    nA.f_cost = nB.f_cost ∧ Node.sortMethod nA nB = false :=
  ⟨by decide, c6_sort_semantics.1 [nA, nB] (by decide),
   by with_unfolding_all decide,
   c6_sort_semantics.2 nA nB (by with_unfolding_all decide)⟩

/-! ### C7: endpoint validation -/

/-- C7 (amended): the planner performs no endpoint validation at all —
`a_star_search` fails with the same `TypeError` on every input, valid or
occupied endpoints alike, raised by its very first statement
(`self.pos_to_node(self.start)` is missing the required `map` argument);
no `InvalidEndpointError` exists anywhere in the code. -/
theorem c7_no_endpoint_check (a : Astar) (fuel : ℕ) :
    a_star_search a fuel = .error .typeError := rfl

/-- The obstacle `[(0,0), (1,0), (0,1), (1,1)]` as built by
`Obstacle.__init__`. -/
def ob7 : Obstacle :=
  { vertices := [(0, 0), (1, 0), (0, 1), (1, 1)]
    top := 1, bottom := 0, left := 0, right := 1 }

/-- The grid built from workspace 4×4, footprint 2 and the obstacle
`ob7`, which marks exactly cell `(0, 0)`. -/
def m7 : Map :=
  { origin := (0, 0), dim_x := 4, dim_y := 4, drone_dim := 2, obstacles := [ob7]
    array := [[{ coords := (0, 0), is_obstacle := true, cost := 0, heuristic := 0,
                 parent := none }, Node.fresh (1, 0)],
              [Node.fresh (0, 1), Node.fresh (1, 1)]] }

/-- C7 (counterexample): the claim says a request whose start maps to an
occupied cell reports `InvalidEndpointError` immediately.  On `m7` the
start `(1, 1)` maps to the occupied cell `(0, 0)`, yet the search
reports the generic `TypeError` every request gets — no
`InvalidEndpointError` is produced. -/
theorem c7_endpoint_counterexample :
    Obstacle.make [(0, 0), (1, 0), (0, 1), (1, 1)] = .ok ob7 ∧
    Map.build (0, 0) 4 4 [ob7] 2 = .ok m7 ∧
    (pos_to_node (1, 1) m7).map Node.is_obstacle = .ok true ∧
    a_star_search (Astar.init m7 (1, 1) (3, 3)) 9 = .error .typeError ∧
    PyError.typeError ≠ PyError.invalidEndpointError := by
  refine ⟨by with_unfolding_all decide, by with_unfolding_all decide,
    by with_unfolding_all decide, rfl, by decide⟩

/-! ### C8: exhaustion of the open set -/

/-- C8: whenever the search loop is entered with an empty open list, it
terminates at once and the function returns `None` (embedded
`Option.none`) — a successful-but-negative value distinct from every
error and from every found path, and carrying no partial path. -/
theorem c8_exhausted_returns_none (a : Astar) (fuel : ℕ) (h : a.nodes_found = []) :
    a_star_loop (fuel + 1) a = .ok none := by
  simp [a_star_loop, h]

/-- Witness for `c8_exhausted_returns_none` on a freshly initialised
planner (empty open list). -/
theorem c8_exhausted_returns_none_witness :
    (Astar.init m0 (1, 1) (3, 3)).nodes_found = [] ∧
    a_star_loop 1 (Astar.init m0 (1, 1) (3, 3)) = .ok none :=
  ⟨rfl, c8_exhausted_returns_none (Astar.init m0 (1, 1) (3, 3)) 0 rfl⟩

/-! ### C1 and C2: evaluations of the search at the failing inputs -/

/-- C1: evaluation at the failing input.  On the obstacle-free grid `m0`
with start `(1, 1)` and target `(3, 3)`, `a_star_search` raises
`TypeError` at its first statement; no path (whose cells the claim
constrains) is ever returned by any run. -/
theorem c1_search_crashes_before_returning :
    a_star_search (Astar.init m0 (1, 1) (3, 3)) 9 = .error .typeError := rfl

/-- C2: evaluation at the failing input.  On `m0` with start = target =
`(1, 1)` a 4-connected unoccupied route trivially exists, yet the search
raises `TypeError` instead of terminating in the found state. -/
theorem c2_search_crashes_on_trivial_route :
    a_star_search (Astar.init m0 (1, 1) (1, 1)) 9 = .error .typeError := rfl

/-! ### C9: obstacle marking and grid bounds -/

/-- The grid has `H` rows of `W` cells each. -/
def Shape (arr : List (List Node)) (H W : ℕ) : Prop :=
  arr.length = H ∧ ∀ row ∈ arr, row.length = W

theorem intsFromTo_cons (a b : ℤ) (h : a ≤ b) :
    intsFromTo a b = a :: intsFromTo (a + 1) b := by
  unfold intsFromTo
  have hn : (b + 1 - a).toNat = (b + 1 - (a + 1)).toNat + 1 := by omega
  rw [hn, List.range_succ_eq_map, List.map_cons, List.map_map]
  congr 1
  · simp
  · apply List.map_congr_left
    intro k _
    simp only [Function.comp_apply]
    push_cast
    ring

theorem mem_intsFromTo {a b x : ℤ} : x ∈ intsFromTo a b ↔ a ≤ x ∧ x ≤ b := by
  unfold intsFromTo
  simp only [List.mem_map, List.mem_range]
  constructor
  · rintro ⟨k, hk, rfl⟩
    omega
  · rintro ⟨h1, h2⟩
    exact ⟨(x - a).toNat, by omega, by omega⟩

theorem setObstacleAt_inRange (arr : List (List Node)) (H W : ℕ) (hS : Shape arr H W)
    (y x : ℤ) (hy0 : 0 ≤ y) (hyH : y < (H : ℤ)) (hx0 : 0 ≤ x) (hxW : x < (W : ℤ)) :
    ∃ arr2, setObstacleAt arr y x = .ok arr2 ∧ Shape arr2 H W := by
  obtain ⟨hlen, hrows⟩ := hS
  have hyl : y < (arr.length : ℤ) := by rw [hlen]; exact hyH
  have hymem : arr.get ⟨y.toNat, by omega⟩ ∈ arr := List.get_mem arr y.toNat (by omega)
  have hrlen : (arr.get ⟨y.toNat, by omega⟩).length = W := hrows _ hymem
  have hxl : x < ((arr.get ⟨y.toNat, by omega⟩).length : ℤ) := by rw [hrlen]; exact hxW
  unfold setObstacleAt
  rw [pyGet_inRange _ _ hy0 hyl, ok_bind, pyGet_inRange _ _ hx0 hxl, ok_bind,
    pySet_inRange _ _ _ hx0 hxl, ok_bind, pySet_inRange _ _ _ hy0 hyl]
  refine ⟨_, rfl, ?_, ?_⟩
  · rw [List.length_set]
    exact hlen
  · intro r hr
    rcases List.mem_or_eq_of_mem_set hr with h | h
    · exact hrows r h
    · rw [h, List.length_set]
      exact hrlen

theorem foldlM_setObstacle_ok (H W : ℕ) (y : ℤ) (hy0 : 0 ≤ y) (hyH : y < (H : ℤ)) :
    ∀ (xs : List ℤ), (∀ x ∈ xs, 0 ≤ x ∧ x < (W : ℤ)) →
      ∀ arr, Shape arr H W →
      ∃ arr2, xs.foldlM (fun acc x => setObstacleAt acc y x) arr = .ok arr2 ∧
        Shape arr2 H W := by
  intro xs
  induction xs with
  | nil =>
    intro _ arr hS
    exact ⟨arr, by rw [List.foldlM_nil]; rfl, hS⟩
  | cons x xs ih =>
    intro hmem arr hS
    obtain ⟨hx0, hxW⟩ := hmem x (List.mem_cons_self x xs)
    obtain ⟨arr1, he1, hS1⟩ := setObstacleAt_inRange arr H W hS y x hy0 hyH hx0 hxW
    obtain ⟨arr2, he2, hS2⟩ := ih (fun z hz => hmem z (List.mem_cons_of_mem x hz)) arr1 hS1
    exact ⟨arr2, by rw [List.foldlM_cons, he1, ok_bind, he2], hS2⟩

theorem markObstacle_row_oob (top left right : ℤ) (hlr : left ≤ right)
    (bottom : ℤ) (hbt : bottom ≤ top) (arr : List (List Node))
    (hHb : (arr.length : ℤ) ≤ bottom) :
    (intsFromTo bottom top).foldlM (fun acc y =>
        (intsFromTo left right).foldlM (fun acc2 x => setObstacleAt acc2 y x) acc) arr
      = .error .indexError := by
  rw [intsFromTo_cons bottom top hbt, List.foldlM_cons,
    intsFromTo_cons left right hlr, List.foldlM_cons]
  have h1 : setObstacleAt arr bottom left = .error .indexError := by
    unfold setObstacleAt
    rw [pyGet_oob arr bottom (Or.inr hHb), error_bind]
  rw [h1, error_bind, error_bind]

theorem markObstacle_y_err (H W : ℕ) (top left right : ℤ)
    (htop : (H : ℤ) ≤ top) (hl : 0 ≤ left) (hlr : left ≤ right) (hr : right < (W : ℤ)) :
    ∀ (n : ℕ) (bottom : ℤ), ((H : ℤ) - bottom).toNat ≤ n → 0 ≤ bottom → bottom ≤ top →
      ∀ arr, Shape arr H W →
      (intsFromTo bottom top).foldlM (fun acc y =>
          (intsFromTo left right).foldlM (fun acc2 x => setObstacleAt acc2 y x) acc) arr
        = .error .indexError := by
  intro n
  induction n with
  | zero =>
    intro bottom hn h0 hbt arr hS
    exact markObstacle_row_oob top left right hlr bottom hbt arr
      (by rw [hS.1]; omega)
  | succ n ih =>
    intro bottom hn h0 hbt arr hS
    by_cases hcase : (H : ℤ) ≤ bottom
    · exact markObstacle_row_oob top left right hlr bottom hbt arr (by rw [hS.1]; omega)
    · push_neg at hcase
      rw [intsFromTo_cons bottom top hbt, List.foldlM_cons]
      obtain ⟨arr1, he1, hS1⟩ := foldlM_setObstacle_ok H W bottom h0 hcase
        (intsFromTo left right)
        (fun z hz => by rw [mem_intsFromTo] at hz; exact ⟨by omega, by omega⟩) arr hS
      rw [he1, ok_bind]
      exact ih (bottom + 1) (by omega) (by omega) (by omega) arr1 hS1

/-- C9 (amended): `create_obstacles` does not clip.  For any obstacle
whose translated, scaled, truncated index rectangle starts inside the
grid on the other three sides but whose top row index reaches the row
count `H`, marking raises `IndexError` when the loop reaches the first
out-of-range row, instead of clipping the rectangle to the grid.
(Ranges reaching negative indices not below `-H`/`-W` instead wrap
around to the opposite edge of the grid, Python-style; see
`c4_pos_to_node_semantics` for the wrap semantics of the same index
resolution.) -/
theorem c9_create_obstacles_no_clip (m : Map) (o : Obstacle) (H W : ℕ)
    (hS : Shape m.array H W) (hd : ¬ m.drone_dim = 0)
    (htop : (H : ℤ) ≤ pyInt ((o.top + m.origin.2) / m.drone_dim))
    (hb0 : 0 ≤ pyInt ((o.bottom + m.origin.2) / m.drone_dim))
    (hbt : pyInt ((o.bottom + m.origin.2) / m.drone_dim)
            ≤ pyInt ((o.top + m.origin.2) / m.drone_dim))
    (hl : 0 ≤ pyInt ((o.left + m.origin.1) / m.drone_dim))
    (hlr : pyInt ((o.left + m.origin.1) / m.drone_dim)
            ≤ pyInt ((o.right + m.origin.1) / m.drone_dim))
    (hr : pyInt ((o.right + m.origin.1) / m.drone_dim) < (W : ℤ)) :
    m.create_obstacles [o] = .error .indexError := by
  have herr : markObstacle m.array
      (pyInt ((o.top + m.origin.2) / m.drone_dim))
      (pyInt ((o.bottom + m.origin.2) / m.drone_dim))
      (pyInt ((o.left + m.origin.1) / m.drone_dim))
      (pyInt ((o.right + m.origin.1) / m.drone_dim)) = .error .indexError := by
    unfold markObstacle
    exact markObstacle_y_err H W _ _ _ htop hl hlr hr
      ((H : ℤ) - pyInt ((o.bottom + m.origin.2) / m.drone_dim)).toNat _
      le_rfl hb0 hbt m.array hS
  unfold Map.create_obstacles
  rw [List.foldlM_cons]
  rw [if_neg hd, herr, error_bind, error_bind]

/-- The obstacle `[(0,0), (1,0), (0,7), (1,7)]`, which sticks out above
the 2×2 grid of `m0`. -/
def ob9 : Obstacle :=
  { vertices := [(0, 0), (1, 0), (0, 7), (1, 7)]
    top := 7, bottom := 0, left := 0, right := 1 }

/-- C9 (counterexample): the claim says obstacles extending outside the
grid are clipped to the valid index range and marking succeeds without
error.  Building the 2×2 grid (workspace 4×4, footprint 2) with the
obstacle `ob9` — index rows 0..3, of which rows 2 and 3 are outside the
grid — raises `IndexError` instead of succeeding. -/
theorem c9_clipping_counterexample :
    Obstacle.make [(0, 0), (1, 0), (0, 7), (1, 7)] = .ok ob9 ∧
    Map.build (0, 0) 4 4 [ob9] 2 = .error .indexError := by
  refine ⟨by with_unfolding_all decide, by with_unfolding_all decide⟩

/-- Witness for `c9_create_obstacles_no_clip`: marking `ob9` on the 2×2
grid `m0` raises `IndexError`. -/
theorem c9_create_obstacles_no_clip_witness :
    Shape m0.array 2 2 ∧ m0.create_obstacles [ob9] = .error .indexError :=
  ⟨⟨by with_unfolding_all decide, by with_unfolding_all decide⟩,
   c9_create_obstacles_no_clip m0 ob9 2 2
     ⟨by with_unfolding_all decide, by with_unfolding_all decide⟩
     (by with_unfolding_all decide) (by with_unfolding_all decide)
     (by with_unfolding_all decide) (by with_unfolding_all decide)
     (by with_unfolding_all decide) (by with_unfolding_all decide)
     (by with_unfolding_all decide)⟩

/-! ### C10: the row-first indexing convention -/

theorem bind_ok_elim {α β : Type} {x : Except PyError α} {f : α → Except PyError β}
    {b : β} (h : (x >>= f) = .ok b) : ∃ a, x = .ok a ∧ f a = .ok b := by
  cases x with
  | error e => rw [error_bind] at h; exact Except.noConfusion h
  | ok a => rw [ok_bind] at h; exact ⟨a, rfl, h⟩

theorem pyGet_ok_elim {α : Type} {l : List α} {i : ℤ} {a : α} (h : pyGet l i = .ok a) :
    ∃ j : Fin l.length, pyIdx l i = some j ∧ a = l.get j := by
  unfold pyGet at h
  cases hj : pyIdx l i with
  | none => rw [hj] at h; exact Except.noConfusion h
  | some j =>
    rw [hj] at h
    injection h with h2
    exact ⟨j, rfl, h2.symm⟩

theorem pySet_ok_elim {α : Type} {l : List α} {i : ℤ} {a : α} {l2 : List α}
    (h : pySet l i a = .ok l2) :
    ∃ j : Fin l.length, pyIdx l i = some j ∧ l2 = l.set j a := by
  unfold pySet at h
  cases hj : pyIdx l i with
  | none => rw [hj] at h; exact Except.noConfusion h
  | some j =>
    rw [hj] at h
    injection h with h2
    exact ⟨j, rfl, h2.symm⟩

theorem set_get_self {α : Type} (l : List α) (k : ℕ) (hk : k < l.length) :
    l.set k (l.get ⟨k, hk⟩) = l := by
  apply List.ext_getElem
  · rw [List.length_set]
  · intro i h1 h2
    rw [List.getElem_set]
    split
    · next heq =>
      subst heq
      rw [List.get_eq_getElem]
    · rfl

theorem coordsGrid_length (arr : List (List Node)) :
    (coordsGrid arr).length = arr.length := by
  unfold coordsGrid
  rw [List.length_map]

theorem coordsGrid_set_same (arr : List (List Node)) (jy : Fin arr.length)
    (jx : Fin (arr.get jy).length) (n2 : Node)
    (hc : n2.coords = ((arr.get jy).get jx).coords) :
    coordsGrid (arr.set (↑jy) ((arr.get jy).set (↑jx) n2)) = coordsGrid arr := by
  unfold coordsGrid
  rw [List.map_set, List.map_set]
  have h2 : n2.coords = ((arr.get jy).map Node.coords).get
      ⟨↑jx, by rw [List.length_map]; exact jx.isLt⟩ := by
    rw [hc, List.get_map]
  rw [h2, set_get_self]
  have h3 : (arr.get jy).map Node.coords
      = (arr.map (fun row => row.map Node.coords)).get
          ⟨↑jy, by rw [List.length_map]; exact jy.isLt⟩ := by
    rw [List.get_map]
  rw [h3, set_get_self]

theorem setObstacleAt_coords (arr arr2 : List (List Node)) (y x : ℤ)
    (h : setObstacleAt arr y x = .ok arr2) : coordsGrid arr2 = coordsGrid arr := by
  unfold setObstacleAt at h
  obtain ⟨row, hrow, h⟩ := bind_ok_elim h
  obtain ⟨node, hnode, h⟩ := bind_ok_elim h
  obtain ⟨row2, hrow2, h⟩ := bind_ok_elim h
  obtain ⟨jy, hjy, hrowval⟩ := pyGet_ok_elim hrow
  obtain ⟨jx, hjx, hnodeval⟩ := pyGet_ok_elim hnode
  obtain ⟨jx2, hjx2, hrow2val⟩ := pySet_ok_elim hrow2
  obtain ⟨jy2, hjy2, harr2⟩ := pySet_ok_elim h
  have hjxeq : jx2 = jx := by
    rw [hjx] at hjx2
    injection hjx2 with hh
    exact hh.symm
  have hjyeq : jy2 = jy := by
    rw [hjy] at hjy2
    injection hjy2 with hh
    exact hh.symm
  subst hjxeq hjyeq hrow2val hnodeval hrowval harr2
  exact coordsGrid_set_same arr jy2 jx2 _ rfl

theorem foldlM_coords {β : Type} (g : List (List Node) → β → Except PyError (List (List Node)))
    (hg : ∀ acc b acc2, g acc b = .ok acc2 → coordsGrid acc2 = coordsGrid acc) :
    ∀ (bs : List β) (arr arr2), bs.foldlM g arr = .ok arr2 →
      coordsGrid arr2 = coordsGrid arr := by
  intro bs
  induction bs with
  | nil =>
    intro arr arr2 h
    rw [List.foldlM_nil] at h
    injection h with h2
    rw [h2]
  | cons b bs ih =>
    intro arr arr2 h
    rw [List.foldlM_cons] at h
    obtain ⟨arr1, hb, h⟩ := bind_ok_elim h
    exact (ih arr1 arr2 h).trans (hg arr b arr1 hb)

theorem markObstacle_coords (arr arr2 : List (List Node)) (top bottom left right : ℤ)
    (h : markObstacle arr top bottom left right = .ok arr2) :
    coordsGrid arr2 = coordsGrid arr := by
  unfold markObstacle at h
  refine foldlM_coords _ ?_ _ arr arr2 h
  intro acc y acc2 hy
  refine foldlM_coords _ ?_ _ acc acc2 hy
  intro acc3 z acc4 hz
  exact setObstacleAt_coords acc3 acc4 y z hz

theorem create_obstacles_coords (m : Map) (obs : List Obstacle) (m2 : Map)
    (h : m.create_obstacles obs = .ok m2) :
    coordsGrid m2.array = coordsGrid m.array := by
  unfold Map.create_obstacles at h
  obtain ⟨arr, hf, hpure⟩ := bind_ok_elim h
  have hm2 : m2.array = arr := by
    injection hpure with h2
    rw [← h2]
  rw [hm2]
  refine foldlM_coords _ ?_ obs m.array arr hf
  intro acc o acc2 ho
  split at ho
  · exact Except.noConfusion ho
  · exact markObstacle_coords acc acc2 _ _ _ _ ho

theorem freshArray_getElem (W H : ℕ) (i : ℕ) (h : i < (freshArray W H).length) :
    (freshArray W H)[i] = (List.range W).map (fun x : ℕ => Node.fresh ((x : ℤ), (i : ℤ))) := by
  unfold freshArray
  rw [List.getElem_map, List.getElem_range]

theorem conv_length (arr : List (List Node)) (W H : ℕ)
    (hconv : coordsGrid arr = coordsGrid (freshArray W H)) : arr.length = H := by
  have h := congrArg List.length hconv
  rw [coordsGrid_length, coordsGrid_length, freshArray_length] at h
  exact h

theorem conv_row (arr : List (List Node)) (W H : ℕ)
    (hconv : coordsGrid arr = coordsGrid (freshArray W H)) (i : ℕ) (hi : i < arr.length) :
    arr[i].map Node.coords = (List.range W).map (fun x : ℕ => ((x : ℤ), (i : ℤ))) := by
  have hiH : i < (freshArray W H).length := by
    rw [freshArray_length, ← conv_length arr W H hconv]
    exact hi
  have h1 := congrArg (fun l => l[i]?) hconv
  simp only at h1
  unfold coordsGrid at h1
  rw [List.getElem?_map, List.getElem?_map, List.getElem?_eq_getElem hi,
    List.getElem?_eq_getElem hiH, Option.map_some', Option.map_some'] at h1
  injection h1 with h2
  rw [h2, freshArray_getElem, List.map_map]
  apply List.map_congr_left
  intro a _
  rfl

theorem conv_row_length (arr : List (List Node)) (W H : ℕ)
    (hconv : coordsGrid arr = coordsGrid (freshArray W H)) (i : ℕ) (hi : i < arr.length) :
    arr[i].length = W := by
  have h := congrArg List.length (conv_row arr W H hconv i hi)
  rw [List.length_map, List.length_map, List.length_range] at h
  exact h

theorem conv_element (arr : List (List Node)) (W H : ℕ)
    (hconv : coordsGrid arr = coordsGrid (freshArray W H)) (i j : ℕ)
    (hi : i < arr.length) (hj : j < arr[i].length) :
    (arr[i][j]).coords = ((j : ℤ), (i : ℤ)) := by
  have hjW : j < (List.range W).length := by
    rw [List.length_range, ← conv_row_length arr W H hconv i hi]
    exact hj
  have h := congrArg (fun l => l[j]?) (conv_row arr W H hconv i hi)
  simp only at h
  rw [List.getElem?_map, List.getElem?_map, List.getElem?_eq_getElem hj,
    List.getElem?_eq_getElem hjW, Option.map_some', Option.map_some'] at h
  injection h with h2
  rw [h2, List.getElem_range]

theorem readCell_conv (arr : List (List Node)) (W H : ℕ)
    (hconv : coordsGrid arr = coordsGrid (freshArray W H))
    (i j : ℤ) (hi0 : 0 ≤ i) (hiH : i < (H : ℤ)) (hj0 : 0 ≤ j) (hjW : j < (W : ℤ)) :
    ∃ n, readCell arr i j = .ok n ∧ n.coords = (j, i) := by
  have hlen : arr.length = H := conv_length arr W H hconv
  have hi2 : i < (arr.length : ℤ) := by rw [hlen]; exact hiH
  have hit : i.toNat < arr.length := by omega
  have hrl : arr[i.toNat].length = W := conv_row_length arr W H hconv i.toNat hit
  have hj2 : j < ((arr.get ⟨i.toNat, hit⟩).length : ℤ) := by
    rw [List.get_eq_getElem, hrl]
    exact hjW
  have hjt : j.toNat < arr[i.toNat].length := by
    rw [List.get_eq_getElem] at hj2
    omega
  refine ⟨arr[i.toNat][j.toNat], ?_, ?_⟩
  · unfold readCell
    rw [pyGet_inRange arr i hi0 hi2, ok_bind, pyGet_inRange _ j hj0 hj2]
    rfl
  · rw [conv_element arr W H hconv i.toNat j.toNat hit hjt,
      Int.toNat_of_nonneg hj0, Int.toNat_of_nonneg hi0]

theorem readNeighbor_conv (skip : Prop) [Decidable skip] (arr : List (List Node))
    (W H : ℕ) (hconv : coordsGrid arr = coordsGrid (freshArray W H)) (i j : ℤ)
    (hbound : ¬ skip → 0 ≤ i ∧ i < (H : ℤ) ∧ 0 ≤ j ∧ j < (W : ℤ)) :
    ∃ o, readNeighbor skip arr i j = .ok o ∧
      ∀ n2, o = some n2 → n2.coords = (j, i) := by
  by_cases hs : skip
  · exact ⟨none, by unfold readNeighbor; rw [if_pos hs]; rfl,
      fun n2 h2 => Option.noConfusion h2⟩
  · obtain ⟨h1, h2, h3, h4⟩ := hbound hs
    obtain ⟨n, hn, hc⟩ := readCell_conv arr W H hconv i j h1 h2 h3 h4
    refine ⟨some n, ?_, fun n2 hh => by injection hh with h5; rw [← h5]; exact hc⟩
    unfold readNeighbor
    rw [if_neg hs, hn, ok_bind]
    rfl

theorem get_neighbors_conv (m : Map) (W H : ℕ)
    (hconv : coordsGrid m.array = coordsGrid (freshArray W H))
    (node : Node) (hx0 : 0 ≤ node.coords.1) (hxW : node.coords.1 < (W : ℤ))
    (hy0 : 0 ≤ node.coords.2) (hyH : node.coords.2 < (H : ℤ)) :
    ∃ ns, m.get_neighbors node = .ok ns ∧
      ∀ n2 ∈ ns,
        n2.coords = (node.coords.1, node.coords.2 + 1) ∨
        n2.coords = (node.coords.1, node.coords.2 - 1) ∨
        n2.coords = (node.coords.1 - 1, node.coords.2) ∨
        n2.coords = (node.coords.1 + 1, node.coords.2) := by
  have hlen : m.array.length = H := conv_length m.array W H hconv
  have hH1 : (0 : ℤ) < (m.array.length : ℤ) := by rw [hlen]; omega
  have h0nat : (0 : ℤ).toNat < m.array.length := by omega
  have hrow0len : (m.array.get ⟨(0 : ℤ).toNat, by omega⟩).length = W :=
    conv_row_length m.array W H hconv 0 h0nat
  obtain ⟨ot, hot, hot2⟩ := readNeighbor_conv
    (node.coords.2 + 1 ≥ (m.array.length : ℤ)) m.array W H hconv
    (node.coords.2 + 1) node.coords.1
    (fun hns => ⟨by omega, by push_neg at hns; rw [hlen] at hns; exact hns, hx0, hxW⟩)
  obtain ⟨ob, hob, hob2⟩ := readNeighbor_conv
    (node.coords.2 - 1 < 0) m.array W H hconv (node.coords.2 - 1) node.coords.1
    (fun hns => ⟨by omega, by omega, hx0, hxW⟩)
  obtain ⟨ol, hol, hol2⟩ := readNeighbor_conv
    (node.coords.1 - 1 < 0) m.array W H hconv node.coords.2 (node.coords.1 - 1)
    (fun hns => ⟨hy0, hyH, by omega, by omega⟩)
  obtain ⟨og, hog, hog2⟩ := readNeighbor_conv
    (node.coords.1 + 1 ≥ ((m.array.get ⟨(0 : ℤ).toNat, by omega⟩).length : ℤ))
    m.array W H hconv node.coords.2 (node.coords.1 + 1)
    (fun hns => ⟨hy0, hyH, by omega,
      by push_neg at hns; rw [hrow0len] at hns; exact hns⟩)
  simp only [Map.get_neighbors]
  rw [pyGet_inRange m.array 0 le_rfl hH1, ok_bind, hot, ok_bind, hob, ok_bind,
    hol, ok_bind, hog, ok_bind]
  refine ⟨_, rfl, ?_⟩
  intro n2 hmem
  have hmem2 := List.mem_of_mem_filter hmem
  rw [List.mem_filterMap] at hmem2
  obtain ⟨o, ho, hido⟩ := hmem2
  simp only [id_eq] at hido
  subst hido
  simp only [List.mem_cons, List.not_mem_nil, or_false] at ho
  rcases ho with h | h | h | h
  · exact Or.inl (hot2 n2 h.symm)
  · exact Or.inr (Or.inl (hob2 n2 h.symm))
  · exact Or.inr (Or.inr (Or.inl (hol2 n2 h.symm)))
  · exact Or.inr (Or.inr (Or.inr (hog2 n2 h.symm)))

/-- C10 (amended): the freshly built grid stores the node with
coordinates `(x, y)` at `array[y][x]` (first conjunct); obstacle marking
(`create_obstacles`), whenever it succeeds, leaves the coordinates of
every grid position unchanged (second conjunct); and `get_neighbors`
reads the array row-first: on any grid whose coordinate layout is the
fresh one, the neighbors of a node with in-range coordinates `(x, y)`
all carry 4-adjacent coordinates (third conjunct).  However the claim's
"every operation that reads or writes the array" is false:
`pos_to_node` reads the array column-first (`array[node_x][node_y]`),
see the counterexample. -/
theorem c10_row_first_convention :
    (∀ (W H : ℕ) (x y : ℤ), 0 ≤ x → x < (W : ℤ) → 0 ≤ y → y < (H : ℤ) →
      (pyGet (freshArray W H) y >>= fun row => pyGet row x).map Node.coords
        = .ok (x, y)) ∧
    (∀ (m : Map) (obs : List Obstacle) (m2 : Map),
      m.create_obstacles obs = .ok m2 → coordsGrid m2.array = coordsGrid m.array) ∧
    (∀ (m : Map) (W H : ℕ), coordsGrid m.array = coordsGrid (freshArray W H) →
      ∀ node : Node, 0 ≤ node.coords.1 → node.coords.1 < (W : ℤ) →
        0 ≤ node.coords.2 → node.coords.2 < (H : ℤ) →
        ∃ ns, m.get_neighbors node = .ok ns ∧
          ∀ n2 ∈ ns,
            n2.coords = (node.coords.1, node.coords.2 + 1) ∨
            n2.coords = (node.coords.1, node.coords.2 - 1) ∨
            n2.coords = (node.coords.1 - 1, node.coords.2) ∨
            n2.coords = (node.coords.1 + 1, node.coords.2)) := by
  refine ⟨?_, ?_, ?_⟩
  · intro W H x y hx0 hxW hy0 hyH
    rw [pyGet_freshArray W H y hy0 hyH, ok_bind, pyGet_freshRow W y x hx0 hxW]
    rfl
  · intro m obs m2 h
    exact create_obstacles_coords m obs m2 h
  · intro m W H hconv node hx0 hxW hy0 hyH
    exact get_neighbors_conv m W H hconv node hx0 hxW hy0 hyH

/-- The grid of `m7` before `create_obstacles` runs. -/
def m7pre : Map :=
  { origin := (0, 0), dim_x := 4, dim_y := 4, drone_dim := 2, obstacles := [ob7]
    array := freshArray 2 2 }

/-- Witness for `c10_row_first_convention` on the 2×2 grid: the fresh
read at `array[0][1]`, the marking `m7pre → m7`, and the neighbors of
the node `(1, 1)` in `m7`. -/
theorem c10_row_first_convention_witness :
    ((pyGet (freshArray 2 2) 0 >>= fun row => pyGet row 1).map Node.coords
      = .ok (1, 0)) ∧
    coordsGrid m7.array = coordsGrid m7pre.array ∧
    (∃ ns, m7.get_neighbors (Node.fresh (1, 1)) = .ok ns ∧
      ∀ n2 ∈ ns,
        n2.coords = ((1 : ℤ), (2 : ℤ)) ∨ n2.coords = ((1 : ℤ), (0 : ℤ)) ∨
        n2.coords = ((0 : ℤ), (1 : ℤ)) ∨ n2.coords = ((2 : ℤ), (1 : ℤ))) :=
  ⟨c10_row_first_convention.1 2 2 1 0 (by decide) (by decide) (by decide) (by decide),
   c10_row_first_convention.2.1 m7pre [ob7] m7 (by with_unfolding_all decide),
   c10_row_first_convention.2.2 m7 2 2 (by with_unfolding_all decide)
     (Node.fresh (1, 1)) (by decide) (by decide) (by decide) (by decide)⟩

/-- C10 (counterexample): the claim says every operation that reads the
array preserves the row-first convention.  For the position `(3, 1)` on
`m0`, the per-axis indices are `node_x = 1`, `node_y = 0`; the row-first
read `array[node_y][node_x]` holds the node `(1, 0)`, but `pos_to_node`
returns the node `(0, 1)` — it read `array[node_x][node_y]` instead. -/
theorem c10_pos_to_node_breaks_convention :
    (pos_to_node (3, 1) m0).map Node.coords = .ok (0, 1) ∧
    ((pyGet m0.array 0 >>= fun row => pyGet row 1).map Node.coords = .ok (1, 0)) ∧
    ((0 : ℤ), (1 : ℤ)) ≠ ((1 : ℤ), (0 : ℤ)) := by
  refine ⟨by with_unfolding_all decide, by with_unfolding_all decide, by decide⟩
